import Mathlib

/-!
Shallow embedding of the quiz tutor service in `src/tutor.py`.

The service keeps quiz sessions in Firestore under
`quiz_sessions/{userId}/sessions/{session_id}` and calls the Gemini model to
generate questions and evaluate answers.  We model the document store as a pair
of partial maps (session documents keyed by the `(userId, session_id)` pair,
and top-level per-user documents, which only the commented-out progress route
reads), and each Gemini call as an oracle parameter `GenOutcome` that either
fails (the Python code raises) or returns a text that may be empty (Python
falsiness triggers the fallback strings).
-/

namespace Tutor

/-- One row of the topic catalog loaded from `finance_topics_full.csv`; the
code only ever reads the `Topic` and `Difficulty` columns. -/
structure TopicRecord where
  topic : String
  difficulty : String
deriving DecidableEq

/-- One entry of a session's `history` list, as built in `answer_question`. -/
structure HistoryEntry where
  question : String
  userAnswer : String
  evaluation : String
deriving DecidableEq

/-- A session document as written by `start_quiz` and updated by
`answer_question`: fields `level`, `questions`, `history`, `currentQuestion`.
`currentQuestion` is stored as a map with a single `Topic` key; we keep just
the string, and `none` models the field being absent from the document. -/
structure SessionDoc where
  level : String
  questions : List TopicRecord
  history : List HistoryEntry
  currentQuestion : Option String
deriving DecidableEq

/-- A top-level document `quiz_sessions/{userId}`.  Nothing in the active code
writes such documents; only the commented-out progress handler reads them, via
`doc.to_dict().get("history", [])`, hence the optional field. -/
structure UserDoc where
  history : Option (List HistoryEntry)
deriving DecidableEq

/-- `fastapi.HTTPException(status_code, detail)`. -/
structure HTTPException where
  status_code : Nat
  detail : String
deriving DecidableEq

/-- The Firestore state visible to this service: the session documents keyed
by `(userId, session_id)` and the top-level per-user documents. -/
structure Store where
  sessions : String × String → Option SessionDoc
  userDocs : String → Option UserDoc

/-- The store before any request has been served. -/
def emptyStore : Store :=
  { sessions := fun _ => none, userDocs := fun _ => none }

/-- `doc_ref.set(...)` on `quiz_sessions/{userId}/sessions/{session_id}`.
The code always passes the complete document (read via `to_dict` and then
mutated in place), so `merge=True` coincides with replacement here. -/
def Store.setSession (s : Store) (userId session_id : String)
    (doc : SessionDoc) : Store :=
  { s with sessions := fun k =>
      if k = (userId, session_id) then some doc else s.sessions k }

/-- Outcome of one `model.generate_content` call: the call raises, or returns
a response whose `.text` is the given string (empty models Python-falsy). -/
inductive GenOutcome where
  | fail
  | ok (text : String)
deriving DecidableEq

/-- The JSON body returned by `start_quiz`. -/
structure StartResponse where
  message : String
  session_id : String
deriving DecidableEq

/-- The JSON body returned by `answer_question`: either
`{evaluation, nextQuestion}` or `{evaluation, message}`. -/
inductive AnswerResponse where
  | next (evaluation nextQuestion : String)
  | completed (evaluation message : String)
deriving DecidableEq

/-- The JSON body returned by the (commented-out) progress handler. -/
structure ProgressResponse where
  history : List HistoryEntry
deriving DecidableEq

/-- The difficulty tiers accepted by `start_quiz`. -/
def VALID_LEVELS : List String := ["Beginner", "Intermediate", "Advanced"]

/-- `POST /start` (`start_quiz` in `tutor.py`).  `session_id` stands for the
`uuid.uuid4().hex` value and `gen` for the Gemini call that produces the first
question.  Returns the updated store together with the HTTP outcome. -/
def start_quiz (df : List TopicRecord) (userId level session_id : String)
    (gen : GenOutcome) (store : Store) :
    Store × Except HTTPException StartResponse :=
  if level ∉ VALID_LEVELS then
    (store, Except.error ⟨400, "Invalid difficulty level"⟩)
  else
    let questions := df.filter (fun r => r.difficulty == level)
    if questions.isEmpty then
      (store, Except.error ⟨500, "No questions found"⟩)
    else
      match gen with
      | GenOutcome.fail =>
          (store, Except.error ⟨500, "Failed to generate question."⟩)
      | GenOutcome.ok t =>
          let generated_question := if t.isEmpty then "No question generated." else t
          let doc : SessionDoc :=
            { level := level, questions := questions, history := [],
              currentQuestion := some generated_question }
          (store.setSession userId session_id doc,
           Except.ok { message := generated_question, session_id := session_id })

/-- `POST /answer` (`answer_question` in `tutor.py`).  `evalGen` is the Gemini
call made by `send_to_gemini` to evaluate the answer, `nextGen` the one that
generates the next question.  The check order is exactly the code's: session
existence, then `currentQuestion` presence, then non-empty answer.  The first
`doc_ref.set` (persisting the history append) happens before the next-question
generation is attempted, so a generation failure still returns the updated
store. -/
def answer_question (userId session_id answer : String)
    (evalGen nextGen : GenOutcome) (store : Store) :
    Store × Except HTTPException AnswerResponse :=
  match store.sessions (userId, session_id) with
  | none => (store, Except.error ⟨400, "No active session found"⟩)
  | some session_data =>
    match session_data.currentQuestion with
    | none => (store, Except.error ⟨400, "No current question found"⟩)
    | some question =>
      if answer.isEmpty then
        (store, Except.error ⟨400, "Answer cannot be empty"⟩)
      else
        match evalGen with
        | GenOutcome.fail =>
            (store, Except.error ⟨500, "Failed to process request."⟩)
        | GenOutcome.ok etext =>
          let evaluation := if etext.isEmpty then "No response received." else etext
          let history_entry : HistoryEntry :=
            { question := question, userAnswer := answer, evaluation := evaluation }
          let sd1 : SessionDoc :=
            { session_data with history := session_data.history ++ [history_entry] }
          let store1 := store.setSession userId session_id sd1
          match sd1.questions with
          | [] => (store1, Except.ok (AnswerResponse.completed evaluation "Quiz completed!"))
          | _next_rec :: rest =>
            match nextGen with
            | GenOutcome.fail =>
                (store1, Except.error ⟨500, "Failed to generate next question."⟩)
            | GenOutcome.ok ntext =>
              let new_question := if ntext.isEmpty then "No question generated." else ntext
              let sd2 : SessionDoc :=
                { sd1 with questions := rest, currentQuestion := some new_question }
              (store1.setSession userId session_id sd2,
               Except.ok (AnswerResponse.next evaluation new_question))

/-- The progress handler, present in `tutor.py` only as commented-out code:
keyed by `userId` alone, it reads the top-level document
`quiz_sessions/{userId}` (not the per-session subcollection) and returns its
`history` field, defaulting to the empty list. -/
def get_progress (userId : String) (store : Store) :
    Except HTTPException ProgressResponse :=
  match store.userDocs userId with
  | none => Except.error ⟨400, "No active session found"⟩
  | some doc => Except.ok ⟨doc.history.getD []⟩

/-- Stores reachable from the empty store by serving start and answer
requests (with arbitrary oracle outcomes). -/
inductive Reachable : Store → Prop where
  | empty : Reachable emptyStore
  | step_start (df : List TopicRecord) (userId level session_id : String)
      (gen : GenOutcome) (s : Store) :
      Reachable s → Reachable (start_quiz df userId level session_id gen s).1
  | step_answer (userId session_id answer : String)
      (evalGen nextGen : GenOutcome) (s : Store) :
      Reachable s → Reachable (answer_question userId session_id answer evalGen nextGen s).1

/-! ### Basic lemmas about the store and the two handlers -/

theorem setSession_sessions_same (s : Store) (userId session_id : String)
    (doc : SessionDoc) :
    (s.setSession userId session_id doc).sessions (userId, session_id) = some doc := by
  simp [Store.setSession]

theorem start_quiz_userDocs (df : List TopicRecord)
    (userId level session_id : String) (gen : GenOutcome) (store : Store) :
    (start_quiz df userId level session_id gen store).1.userDocs = store.userDocs := by
  unfold start_quiz
  dsimp only
  repeat' split
  all_goals rfl

theorem answer_question_userDocs (userId session_id answer : String)
    (g1 g2 : GenOutcome) (store : Store) :
    (answer_question userId session_id answer g1 g2 store).1.userDocs =
      store.userDocs := by
  unfold answer_question
  dsimp only
  repeat' split
  all_goals rfl

/-- Absent session: the handler rejects with 400 before anything else. -/
theorem answerEq_absent (userId session_id answer : String)
    (g1 g2 : GenOutcome) (store : Store)
    (habs : store.sessions (userId, session_id) = none) :
    answer_question userId session_id answer g1 g2 store =
      (store, Except.error ⟨400, "No active session found"⟩) := by
  simp [answer_question, habs]

/-- Session present but no `currentQuestion` field: 400 before the evaluator. -/
theorem answerEq_noQuestion (userId session_id answer : String)
    (g1 g2 : GenOutcome) (store : Store) (sd : SessionDoc)
    (hfind : store.sessions (userId, session_id) = some sd)
    (hq : sd.currentQuestion = none) :
    answer_question userId session_id answer g1 g2 store =
      (store, Except.error ⟨400, "No current question found"⟩) := by
  simp [answer_question, hfind, hq]

/-- Empty answer on a session with a current question: 400, no write. -/
theorem answerEq_emptyAnswer (userId session_id answer : String)
    (g1 g2 : GenOutcome) (store : Store) (sd : SessionDoc) (q : String)
    (hfind : store.sessions (userId, session_id) = some sd)
    (hq : sd.currentQuestion = some q)
    (hans : answer.isEmpty = true) :
    answer_question userId session_id answer g1 g2 store =
      (store, Except.error ⟨400, "Answer cannot be empty"⟩) := by
  simp [answer_question, hfind, hq, hans]

/-- No remaining topics: the history append is persisted, the old
`currentQuestion` is left in the document, and the completion payload is
returned. -/
theorem answerEq_completed (userId session_id answer e : String)
    (g2 : GenOutcome) (store : Store) (sd : SessionDoc) (q : String)
    (hfind : store.sessions (userId, session_id) = some sd)
    (hq : sd.currentQuestion = some q)
    (hqs : sd.questions = [])
    (hans : answer.isEmpty = false) :
    answer_question userId session_id answer (GenOutcome.ok e) g2 store =
      (store.setSession userId session_id
        { sd with history := sd.history ++
            [{ question := q, userAnswer := answer,
               evaluation := if e.isEmpty then "No response received." else e }] },
       Except.ok (AnswerResponse.completed
         (if e.isEmpty then "No response received." else e) "Quiz completed!")) := by
  simp [answer_question, hfind, hq, hqs, hans]

/-- Remaining topics and next-question generation fails: the history append
was already persisted, and the request errors with 500. -/
theorem answerEq_nextFail (userId session_id answer e : String)
    (store : Store) (sd : SessionDoc) (q : String)
    (r : TopicRecord) (rest : List TopicRecord)
    (hfind : store.sessions (userId, session_id) = some sd)
    (hq : sd.currentQuestion = some q)
    (hqs : sd.questions = r :: rest)
    (hans : answer.isEmpty = false) :
    answer_question userId session_id answer (GenOutcome.ok e) GenOutcome.fail store =
      (store.setSession userId session_id
        { sd with history := sd.history ++
            [{ question := q, userAnswer := answer,
               evaluation := if e.isEmpty then "No response received." else e }] },
       Except.error ⟨500, "Failed to generate next question."⟩) := by
  simp [answer_question, hfind, hq, hqs, hans]

/-- Remaining topics and next-question generation succeeds: front topic is
consumed, the new question is stored, and `{evaluation, nextQuestion}` is
returned. -/
theorem answerEq_nextOk (userId session_id answer e nt : String)
    (store : Store) (sd : SessionDoc) (q : String)
    (r : TopicRecord) (rest : List TopicRecord)
    (hfind : store.sessions (userId, session_id) = some sd)
    (hq : sd.currentQuestion = some q)
    (hqs : sd.questions = r :: rest)
    (hans : answer.isEmpty = false) :
    answer_question userId session_id answer (GenOutcome.ok e) (GenOutcome.ok nt) store =
      ((store.setSession userId session_id
          { sd with history := sd.history ++
              [{ question := q, userAnswer := answer,
                 evaluation := if e.isEmpty then "No response received." else e }] }).setSession
          userId session_id
          { sd with
            history := sd.history ++
              [{ question := q, userAnswer := answer,
                 evaluation := if e.isEmpty then "No response received." else e }],
            questions := rest,
            currentQuestion := some (if nt.isEmpty then "No question generated." else nt) },
       Except.ok (AnswerResponse.next
         (if e.isEmpty then "No response received." else e)
         (if nt.isEmpty then "No question generated." else nt))) := by
  simp [answer_question, hfind, hq, hqs, hans]

/-- Evaluator call fails: 500, no write (the first `doc_ref.set` has not yet
happened). -/
theorem answerEq_evalFail (userId session_id answer : String) (g2 : GenOutcome)
    (store : Store) (sd : SessionDoc) (q : String)
    (hfind : store.sessions (userId, session_id) = some sd)
    (hq : sd.currentQuestion = some q)
    (hans : answer.isEmpty = false) :
    answer_question userId session_id answer GenOutcome.fail g2 store =
      (store, Except.error ⟨500, "Failed to process request."⟩) := by
  simp [answer_question, hfind, hq, hans]

/-- Invalid difficulty level: 400, no write, the Gemini oracle is unused. -/
theorem startEq_invalid (df : List TopicRecord)
    (userId level session_id : String) (gen : GenOutcome) (store : Store)
    (hlvl : level ∉ VALID_LEVELS) :
    start_quiz df userId level session_id gen store =
      (store, Except.error ⟨400, "Invalid difficulty level"⟩) := by
  simp [start_quiz, hlvl]

/-- Valid level, non-empty filtered catalog, successful generation: the new
session document is written and `{message, session_id}` returned. -/
theorem startEq_ok (df : List TopicRecord)
    (userId level session_id t : String) (store : Store)
    (hlvl : level ∈ VALID_LEVELS)
    (hne : (df.filter (fun r => r.difficulty == level)).isEmpty = false) :
    start_quiz df userId level session_id (GenOutcome.ok t) store =
      (store.setSession userId session_id
        { level := level,
          questions := df.filter (fun r => r.difficulty == level),
          history := [],
          currentQuestion := some (if t.isEmpty then "No question generated." else t) },
       Except.ok { message := if t.isEmpty then "No question generated." else t,
                   session_id := session_id }) := by
  simp [start_quiz, hlvl, hne]

/-- No request handler ever writes a top-level per-user document. -/
theorem reachable_userDocs (store : Store) (h : Reachable store) (userId : String) :
    store.userDocs userId = none := by
  induction h with
  | empty => rfl
  | step_start df uid lvl sid g s hs ih =>
      rw [start_quiz_userDocs]
      exact ih
  | step_answer uid sid a g1 g2 s hs ih =>
      rw [answer_question_userDocs]
      exact ih

/-- The progress handler errors whenever the per-user document is absent. -/
theorem get_progress_absent (userId : String) (store : Store)
    (h : store.userDocs userId = none) :
    get_progress userId store = Except.error ⟨400, "No active session found"⟩ := by
  simp [get_progress, h]

/-! ### Concrete fixtures used by counterexamples and witnesses -/

/-- A Beginner session whose remaining-topic queue is exhausted. -/
def sdNoTopics : SessionDoc :=
  { level := "Beginner", questions := [], history := [],
    currentQuestion := some "Q1" }

/-- A store holding only the exhausted session `("u", "s")`. -/
def storeNoTopics : Store := emptyStore.setSession "u" "s" sdNoTopics

/-- A Beginner session with one remaining topic. -/
def sdOneTopic : SessionDoc :=
  { level := "Beginner",
    questions := [{ topic := "Saving", difficulty := "Beginner" }],
    history := [], currentQuestion := some "Q1" }

/-- A store holding only the one-topic session `("u", "s")`. -/
def storeOneTopic : Store := emptyStore.setSession "u" "s" sdOneTopic

/-- A session document lacking the `currentQuestion` field. -/
def sdNoQuestion : SessionDoc :=
  { level := "Beginner", questions := [], history := [], currentQuestion := none }

/-- A store holding only the question-less session `("u", "s")`. -/
def storeNoQuestion : Store := emptyStore.setSession "u" "s" sdNoQuestion

/-- A small topic catalog with two Beginner rows and one Advanced row. -/
def catalogB : List TopicRecord :=
  [{ topic := "Budgeting", difficulty := "Beginner" },
   { topic := "Saving", difficulty := "Beginner" },
   { topic := "Options", difficulty := "Advanced" }]

/-! ### Claim theorems -/

/-- C4: during an answer request, the evaluation and the history append are
persisted to the session store before next-question generation is attempted;
if next-question generation then fails, the request returns a server error
(500) but the already-persisted history entry is retained, not rolled back. -/
theorem c4_history_persisted_before_nextgen (userId session_id answer e : String)
    (store : Store) (sd : SessionDoc) (q : String)
    (r : TopicRecord) (rest : List TopicRecord)
    (hfind : store.sessions (userId, session_id) = some sd)
    (hq : sd.currentQuestion = some q)
    (hqs : sd.questions = r :: rest)
    (hans : answer.isEmpty = false) :
    (answer_question userId session_id answer (GenOutcome.ok e) GenOutcome.fail store).2 =
      Except.error ⟨500, "Failed to generate next question."⟩ ∧
    (answer_question userId session_id answer (GenOutcome.ok e)
        GenOutcome.fail store).1.sessions (userId, session_id) =
      some { sd with history := sd.history ++
        [{ question := q, userAnswer := answer,
           evaluation := if e.isEmpty then "No response received." else e }] } := by
  rw [answerEq_nextFail userId session_id answer e store sd q r rest hfind hq hqs hans]
  exact ⟨rfl, setSession_sessions_same _ _ _ _⟩

/-- C4 witness: concrete run with one remaining topic and a failing
next-question generation. -/
theorem c4_witness :
    storeOneTopic.sessions ("u", "s") = some sdOneTopic ∧
    sdOneTopic.currentQuestion = some "Q1" ∧
    sdOneTopic.questions = [{ topic := "Saving", difficulty := "Beginner" }] ∧
    "a".isEmpty = false ∧
    ((answer_question "u" "s" "a" (GenOutcome.ok "fb") GenOutcome.fail storeOneTopic).2 =
        Except.error ⟨500, "Failed to generate next question."⟩ ∧
      (answer_question "u" "s" "a" (GenOutcome.ok "fb")
          GenOutcome.fail storeOneTopic).1.sessions ("u", "s") =
        some { sdOneTopic with history := sdOneTopic.history ++
          [{ question := "Q1", userAnswer := "a",
             evaluation := if "fb".isEmpty then "No response received." else "fb" }] }) :=
  ⟨by decide, rfl, rfl, rfl,
   c4_history_persisted_before_nextgen "u" "s" "a" "fb" storeOneTopic sdOneTopic "Q1"
     { topic := "Saving", difficulty := "Beginner" } [] (by decide) rfl rfl rfl⟩

/-- C5: for every start request with a valid level, a non-empty filtered
catalog for that level and a successful generation, start returns the
session id and a non-empty question string, and persists a new record with
that level, the filtered catalog as remaining topics, an empty history, and
the generated question as `currentQuestion`. -/
theorem c5_start_valid (df : List TopicRecord) (userId level session_id t : String)
    (store : Store)
    (hlvl : level ∈ VALID_LEVELS)
    (hne : (df.filter (fun r => r.difficulty == level)).isEmpty = false) :
    (start_quiz df userId level session_id (GenOutcome.ok t) store).2 =
      Except.ok { message := if t.isEmpty then "No question generated." else t,
                  session_id := session_id } ∧
    (if t.isEmpty then "No question generated." else t).isEmpty = false ∧
    (start_quiz df userId level session_id (GenOutcome.ok t) store).1.sessions
        (userId, session_id) =
      some { level := level,
             questions := df.filter (fun r => r.difficulty == level),
             history := [],
             currentQuestion := some (if t.isEmpty then "No question generated." else t) } := by
  rw [startEq_ok df userId level session_id t store hlvl hne]
  refine ⟨rfl, ?_, setSession_sessions_same _ _ _ _⟩
  cases ht : t.isEmpty
  · exact ht
  · rfl

/-- C5 witness: concrete start on the Beginner tier of the small catalog. -/
theorem c5_witness :
    ("Beginner" : String) ∈ VALID_LEVELS ∧
    (catalogB.filter (fun r => r.difficulty == "Beginner")).isEmpty = false ∧
    ((start_quiz catalogB "u" "Beginner" "s"
        (GenOutcome.ok "What is compound interest?") emptyStore).2 =
      Except.ok { message := if ("What is compound interest?" : String).isEmpty then
                    "No question generated." else "What is compound interest?",
                  session_id := "s" } ∧
    (if ("What is compound interest?" : String).isEmpty then
        "No question generated." else "What is compound interest?").isEmpty = false ∧
    (start_quiz catalogB "u" "Beginner" "s"
        (GenOutcome.ok "What is compound interest?") emptyStore).1.sessions ("u", "s") =
      some { level := "Beginner",
             questions := catalogB.filter (fun r => r.difficulty == "Beginner"),
             history := [],
             currentQuestion := some (if ("What is compound interest?" : String).isEmpty then
               "No question generated." else "What is compound interest?") }) :=
  ⟨by decide, by decide,
   c5_start_valid catalogB "u" "Beginner" "s" "What is compound interest?" emptyStore
     (by decide) (by decide)⟩

/-- C6: for every start request whose level is outside the three tiers, start
returns the 400 validation error, the store is returned unchanged (no write),
and the result does not depend on the generation oracle (no model call). -/
theorem c6_start_invalid_level (df : List TopicRecord)
    (userId level session_id : String) (gen : GenOutcome) (store : Store)
    (hlvl : level ∉ VALID_LEVELS) :
    start_quiz df userId level session_id gen store =
      (store, Except.error ⟨400, "Invalid difficulty level"⟩) :=
  startEq_invalid df userId level session_id gen store hlvl

/-- C6 witness: concrete start with level `Expert`. -/
theorem c6_witness :
    ("Expert" : String) ∉ VALID_LEVELS ∧
    start_quiz catalogB "u" "Expert" "s" GenOutcome.fail emptyStore =
      (emptyStore, Except.error ⟨400, "Invalid difficulty level"⟩) :=
  ⟨by decide, c6_start_invalid_level catalogB "u" "Expert" "s" GenOutcome.fail emptyStore
    (by decide)⟩

/-- C7: every answer request with an empty answer string returns a 400 client
error and leaves the store (hence every session's history) unchanged,
whichever rejection branch fires first. -/
theorem c7_empty_answer_rejected (userId session_id : String)
    (g1 g2 : GenOutcome) (store : Store) :
    (answer_question userId session_id "" g1 g2 store).1 = store ∧
    ∃ d, (answer_question userId session_id "" g1 g2 store).2 =
      Except.error ⟨400, d⟩ := by
  cases hfind : store.sessions (userId, session_id) with
  | none =>
      rw [answerEq_absent userId session_id "" g1 g2 store hfind]
      exact ⟨rfl, "No active session found", rfl⟩
  | some sd =>
      cases hq : sd.currentQuestion with
      | none =>
          rw [answerEq_noQuestion userId session_id "" g1 g2 store sd hfind hq]
          exact ⟨rfl, "No current question found", rfl⟩
      | some q =>
          rw [answerEq_emptyAnswer userId session_id "" g1 g2 store sd q hfind hq (by decide)]
          exact ⟨rfl, "Answer cannot be empty", rfl⟩

/-- C8: every successful answer call appends exactly one entry to the
session's persisted history (earlier entries unchanged and in order), leaves
the level unchanged, and either pops exactly the front remaining topic or
leaves the (empty) remaining-topic list constant — it never grows. -/
theorem c8_success_invariants (userId session_id answer : String)
    (g1 g2 : GenOutcome) (store store' : Store) (resp : AnswerResponse)
    (sd : SessionDoc)
    (hfind : store.sessions (userId, session_id) = some sd)
    (hrun : answer_question userId session_id answer g1 g2 store =
      (store', Except.ok resp)) :
    ∃ sd' entry, store'.sessions (userId, session_id) = some sd' ∧
      sd'.history = sd.history ++ [entry] ∧
      sd'.level = sd.level ∧
      ((sd.questions = [] ∧ sd'.questions = []) ∨
        ∃ r, sd.questions = r :: sd'.questions) := by
  cases hq : sd.currentQuestion with
  | none =>
      rw [answerEq_noQuestion userId session_id answer g1 g2 store sd hfind hq] at hrun
      simp [Prod.ext_iff] at hrun
  | some q =>
      cases hans : answer.isEmpty with
      | true =>
          rw [answerEq_emptyAnswer userId session_id answer g1 g2 store sd q hfind hq hans]
            at hrun
          simp [Prod.ext_iff] at hrun
      | false =>
          cases g1 with
          | fail =>
              rw [answerEq_evalFail userId session_id answer g2 store sd q hfind hq hans]
                at hrun
              simp [Prod.ext_iff] at hrun
          | ok e =>
              cases hqs : sd.questions with
              | nil =>
                  rw [answerEq_completed userId session_id answer e g2 store sd q
                    hfind hq hqs hans] at hrun
                  rw [Prod.mk.injEq] at hrun
                  obtain ⟨h1, h2⟩ := hrun
                  refine ⟨{ sd with history := sd.history ++
                      [{ question := q, userAnswer := answer,
                         evaluation := if e.isEmpty then "No response received." else e }] },
                    { question := q, userAnswer := answer,
                      evaluation := if e.isEmpty then "No response received." else e },
                    ?_, rfl, rfl, Or.inl ⟨rfl, hqs⟩⟩
                  rw [← h1]
                  exact setSession_sessions_same _ _ _ _
              | cons r rest =>
                  cases g2 with
                  | fail =>
                      rw [answerEq_nextFail userId session_id answer e store sd q r rest
                        hfind hq hqs hans] at hrun
                      simp [Prod.ext_iff] at hrun
                  | ok nt =>
                      rw [answerEq_nextOk userId session_id answer e nt store sd q r rest
                        hfind hq hqs hans] at hrun
                      rw [Prod.mk.injEq] at hrun
                      obtain ⟨h1, h2⟩ := hrun
                      refine ⟨{ sd with
                          history := sd.history ++
                            [{ question := q, userAnswer := answer,
                               evaluation := if e.isEmpty then "No response received." else e }],
                          questions := rest,
                          currentQuestion :=
                            some (if nt.isEmpty then "No question generated." else nt) },
                        { question := q, userAnswer := answer,
                          evaluation := if e.isEmpty then "No response received." else e },
                        ?_, rfl, rfl, Or.inr ⟨r, rfl⟩⟩
                      rw [← h1]
                      exact setSession_sessions_same _ _ _ _

/-- C8 witness: concrete successful answer consuming the single remaining
topic. -/
theorem c8_witness :
    storeOneTopic.sessions ("u", "s") = some sdOneTopic ∧
    (answer_question "u" "s" "a" (GenOutcome.ok "fb") (GenOutcome.ok "Q2") storeOneTopic =
      ((answer_question "u" "s" "a" (GenOutcome.ok "fb") (GenOutcome.ok "Q2") storeOneTopic).1,
       Except.ok (AnswerResponse.next "fb" "Q2"))) ∧
    (∃ sd' entry,
      (answer_question "u" "s" "a" (GenOutcome.ok "fb")
          (GenOutcome.ok "Q2") storeOneTopic).1.sessions ("u", "s") = some sd' ∧
      sd'.history = sdOneTopic.history ++ [entry] ∧
      sd'.level = sdOneTopic.level ∧
      ((sdOneTopic.questions = [] ∧ sd'.questions = []) ∨
        ∃ r, sdOneTopic.questions = r :: sd'.questions)) :=
  ⟨by decide, rfl,
   c8_success_invariants "u" "s" "a" (GenOutcome.ok "fb") (GenOutcome.ok "Q2") storeOneTopic
     (answer_question "u" "s" "a" (GenOutcome.ok "fb") (GenOutcome.ok "Q2") storeOneTopic).1
     (AnswerResponse.next "fb" "Q2") sdOneTopic (by decide) rfl⟩

/-- C9: when the persisted record exists but has no `currentQuestion`, the
answer request is rejected with 400 "No current question found"; the store is
unchanged and the result does not depend on either Gemini oracle (the
evaluator is never called). -/
theorem c9_missing_current_question (userId session_id answer : String)
    (g1 g2 : GenOutcome) (store : Store) (sd : SessionDoc)
    (hfind : store.sessions (userId, session_id) = some sd)
    (hq : sd.currentQuestion = none) :
    answer_question userId session_id answer g1 g2 store =
      (store, Except.error ⟨400, "No current question found"⟩) :=
  answerEq_noQuestion userId session_id answer g1 g2 store sd hfind hq

/-- C9 witness: concrete answer against a record lacking `currentQuestion`. -/
theorem c9_witness :
    storeNoQuestion.sessions ("u", "s") = some sdNoQuestion ∧
    sdNoQuestion.currentQuestion = none ∧
    answer_question "u" "s" "a" GenOutcome.fail GenOutcome.fail storeNoQuestion =
      (storeNoQuestion, Except.error ⟨400, "No current question found"⟩) :=
  ⟨by decide, rfl,
   c9_missing_current_question "u" "s" "a" GenOutcome.fail GenOutcome.fail storeNoQuestion
     sdNoQuestion (by decide) rfl⟩

/-- C10: the session-existence check runs before the empty-answer check: an
empty-answer request on an absent `(userId, session_id)` pair gets 400
"No active session found", not the empty-answer validation error. -/
theorem c10_absent_before_empty_check (userId session_id : String)
    (g1 g2 : GenOutcome) (store : Store)
    (habs : store.sessions (userId, session_id) = none) :
    answer_question userId session_id "" g1 g2 store =
      (store, Except.error ⟨400, "No active session found"⟩) :=
  answerEq_absent userId session_id "" g1 g2 store habs

/-- C10 witness: empty answer on the empty store. -/
theorem c10_witness :
    emptyStore.sessions ("u", "s") = none ∧
    answer_question "u" "s" "" GenOutcome.fail GenOutcome.fail emptyStore =
      (emptyStore, Except.error ⟨400, "No active session found"⟩) :=
  ⟨rfl, c10_absent_before_empty_check "u" "s" GenOutcome.fail GenOutcome.fail emptyStore rfl⟩

/-- C1 counterexample: on a session whose remaining-topic queue is empty, the
answer request does return the completion payload, but the persisted record
still contains `currentQuestion` (`some "Q1"`, not absent) — the claim that
the history is persisted with no `currentQuestion` fails at this input. -/
theorem c1_counterexample :
    (answer_question "u" "s" "my answer" (GenOutcome.ok "good") (GenOutcome.ok "X")
        storeNoTopics).2 =
      Except.ok (AnswerResponse.completed "good" "Quiz completed!") ∧
    ((answer_question "u" "s" "my answer" (GenOutcome.ok "good") (GenOutcome.ok "X")
        storeNoTopics).1.sessions ("u", "s")).bind SessionDoc.currentQuestion =
      some "Q1" ∧
    ((answer_question "u" "s" "my answer" (GenOutcome.ok "good") (GenOutcome.ok "X")
        storeNoTopics).1.sessions ("u", "s")).bind SessionDoc.currentQuestion ≠ none :=
  ⟨rfl, rfl, fun h => Option.noConfusion h⟩

/-- C1 (amended): for every answer request on an existing session whose
remaining-topic queue is empty (current question present, answer non-empty,
evaluator call successful), the operation persists the updated history with
the `currentQuestion` field retained unchanged — it is not removed — and
returns the evaluation together with the message "Quiz completed!". -/
theorem c1_completion_retains_question (userId session_id answer e : String)
    (g2 : GenOutcome) (store : Store) (sd : SessionDoc) (q : String)
    (hfind : store.sessions (userId, session_id) = some sd)
    (hq : sd.currentQuestion = some q)
    (hqs : sd.questions = [])
    (hans : answer.isEmpty = false) :
    (answer_question userId session_id answer (GenOutcome.ok e) g2 store).2 =
      Except.ok (AnswerResponse.completed
        (if e.isEmpty then "No response received." else e) "Quiz completed!") ∧
    (answer_question userId session_id answer (GenOutcome.ok e) g2 store).1.sessions
        (userId, session_id) =
      some { sd with history := sd.history ++
        [{ question := q, userAnswer := answer,
           evaluation := if e.isEmpty then "No response received." else e }] } := by
  rw [answerEq_completed userId session_id answer e g2 store sd q hfind hq hqs hans]
  exact ⟨rfl, setSession_sessions_same _ _ _ _⟩

/-- C1 witness: concrete completing answer on the exhausted session. -/
theorem c1_witness :
    storeNoTopics.sessions ("u", "s") = some sdNoTopics ∧
    sdNoTopics.currentQuestion = some "Q1" ∧
    sdNoTopics.questions = [] ∧
    "a".isEmpty = false ∧
    ((answer_question "u" "s" "a" (GenOutcome.ok "fb") GenOutcome.fail storeNoTopics).2 =
        Except.ok (AnswerResponse.completed
          (if ("fb" : String).isEmpty then "No response received." else "fb")
          "Quiz completed!") ∧
      (answer_question "u" "s" "a" (GenOutcome.ok "fb")
          GenOutcome.fail storeNoTopics).1.sessions ("u", "s") =
        some { sdNoTopics with history := sdNoTopics.history ++
          [{ question := "Q1", userAnswer := "a",
             evaluation := if ("fb" : String).isEmpty then "No response received." else "fb" }] }) :=
  ⟨by decide, rfl, rfl, rfl,
   c1_completion_retains_question "u" "s" "a" "fb" GenOutcome.fail storeNoTopics sdNoTopics
     "Q1" (by decide) rfl rfl rfl⟩

/-- C2 counterexample: after an answer call that returned the completion
message on session `("u", "s")`, a second answer call on the very same
session still succeeds (returns the completion payload again) and appends a
second history entry — the claim that every later answer call is rejected
and performs no further mutation fails at this input. -/
theorem c2_counterexample :
    (answer_question "u" "s" "first" (GenOutcome.ok "fb1") GenOutcome.fail
        storeNoTopics).2 =
      Except.ok (AnswerResponse.completed "fb1" "Quiz completed!") ∧
    (answer_question "u" "s" "second" (GenOutcome.ok "fb2") GenOutcome.fail
        (answer_question "u" "s" "first" (GenOutcome.ok "fb1") GenOutcome.fail
          storeNoTopics).1).2 =
      Except.ok (AnswerResponse.completed "fb2" "Quiz completed!") ∧
    ((answer_question "u" "s" "second" (GenOutcome.ok "fb2") GenOutcome.fail
        (answer_question "u" "s" "first" (GenOutcome.ok "fb1") GenOutcome.fail
          storeNoTopics).1).1.sessions ("u", "s")).map
        (fun d => d.history.length) = some 2 :=
  ⟨rfl, rfl, rfl⟩

/-- C2 (amended): an answer call that exhausts no topics (the queue is
already empty) returns the completion message, yet the persisted record keeps
its `currentQuestion`, so any subsequent answer request on the same
`(userId, session_id)` pair with a non-empty answer and a successful
evaluator call is accepted again: it also returns the completion payload and
appends one more history entry to the persisted record. -/
theorem c2_completed_session_still_answers
    (userId session_id a1 a2 e1 e2 : String) (g1 g2 : GenOutcome)
    (store : Store) (sd : SessionDoc) (q : String)
    (hfind : store.sessions (userId, session_id) = some sd)
    (hq : sd.currentQuestion = some q)
    (hqs : sd.questions = [])
    (ha1 : a1.isEmpty = false)
    (ha2 : a2.isEmpty = false) :
    (answer_question userId session_id a1 (GenOutcome.ok e1) g1 store).2 =
      Except.ok (AnswerResponse.completed
        (if e1.isEmpty then "No response received." else e1) "Quiz completed!") ∧
    (answer_question userId session_id a2 (GenOutcome.ok e2) g2
        (answer_question userId session_id a1 (GenOutcome.ok e1) g1 store).1).2 =
      Except.ok (AnswerResponse.completed
        (if e2.isEmpty then "No response received." else e2) "Quiz completed!") ∧
    ∃ sd2, (answer_question userId session_id a2 (GenOutcome.ok e2) g2
        (answer_question userId session_id a1 (GenOutcome.ok e1) g1 store).1).1.sessions
        (userId, session_id) = some sd2 ∧
      sd2.history.length = sd.history.length + 2 := by
  rw [answerEq_completed userId session_id a1 e1 g1 store sd q hfind hq hqs ha1]
  have hfind2 := setSession_sessions_same store userId session_id
    { sd with history := sd.history ++
      [{ question := q, userAnswer := a1,
         evaluation := if e1.isEmpty then "No response received." else e1 }] }
  rw [answerEq_completed userId session_id a2 e2 g2 _ _ q hfind2 hq hqs ha2]
  refine ⟨rfl, rfl, _, setSession_sessions_same _ _ _ _, ?_⟩
  simp

/-- C2 witness: concrete double answer on the exhausted session. -/
theorem c2_witness :
    storeNoTopics.sessions ("u", "s") = some sdNoTopics ∧
    sdNoTopics.currentQuestion = some "Q1" ∧
    sdNoTopics.questions = [] ∧
    "x".isEmpty = false ∧
    "y".isEmpty = false ∧
    ((answer_question "u" "s" "x" (GenOutcome.ok "e1") GenOutcome.fail storeNoTopics).2 =
        Except.ok (AnswerResponse.completed
          (if ("e1" : String).isEmpty then "No response received." else "e1")
          "Quiz completed!") ∧
      (answer_question "u" "s" "y" (GenOutcome.ok "e2") GenOutcome.fail
          (answer_question "u" "s" "x" (GenOutcome.ok "e1") GenOutcome.fail
            storeNoTopics).1).2 =
        Except.ok (AnswerResponse.completed
          (if ("e2" : String).isEmpty then "No response received." else "e2")
          "Quiz completed!") ∧
      ∃ sd2, (answer_question "u" "s" "y" (GenOutcome.ok "e2") GenOutcome.fail
          (answer_question "u" "s" "x" (GenOutcome.ok "e1") GenOutcome.fail
            storeNoTopics).1).1.sessions ("u", "s") = some sd2 ∧
        sd2.history.length = sdNoTopics.history.length + 2) :=
  ⟨by decide, rfl, rfl, rfl, rfl,
   c2_completed_session_still_answers "u" "s" "x" "y" "e1" "e2"
     GenOutcome.fail GenOutcome.fail storeNoTopics sdNoTopics "Q1"
     (by decide) rfl rfl rfl rfl⟩

/-- C3 counterexample: after a start and one recorded answer on session
`("u", "s")` — so the persisted session has exactly one history entry — the
progress handler (read from its commented-out source) does not return that
entry: it yields the 400 "No active session found" client error, because it
is keyed by `userId` alone and reads a top-level document the quiz flow never
writes. -/
theorem c3_counterexample :
    get_progress "u"
        (answer_question "u" "s" "Interest on interest" (GenOutcome.ok "Correct")
          (GenOutcome.ok "Q2")
          (start_quiz catalogB "u" "Beginner" "s" (GenOutcome.ok "Q1") emptyStore).1).1 =
      Except.error ⟨400, "No active session found"⟩ ∧
    ((answer_question "u" "s" "Interest on interest" (GenOutcome.ok "Correct")
        (GenOutcome.ok "Q2")
        (start_quiz catalogB "u" "Beginner" "s" (GenOutcome.ok "Q1") emptyStore).1).1.sessions
        ("u", "s")).map (fun d => d.history.length) = some 1 :=
  ⟨rfl, rfl⟩

/-- C3 (amended): the progress route is commented out in the code; the
handler as written is keyed by `userId` alone and reads the top-level
per-user document, which neither start nor answer ever writes.  Hence on
every store reachable from the empty store through start/answer operations,
`get_progress` returns the 400 "No active session found" client error — it
never returns a session's history, whatever the session's state. -/
theorem c3_progress_always_errors (userId : String) (store : Store)
    (h : Reachable store) :
    get_progress userId store = Except.error ⟨400, "No active session found"⟩ :=
  get_progress_absent userId store (reachable_userDocs store h userId)

/-- C3 witness: the empty store is reachable and progress on it errors. -/
theorem c3_witness :
    Reachable emptyStore ∧
    get_progress "u" emptyStore = Except.error ⟨400, "No active session found"⟩ :=
  ⟨Reachable.empty, c3_progress_always_errors "u" emptyStore Reachable.empty⟩

end Tutor
